import Mathlib

/-!
Verification of the zorvixebackend service against its specification.

The backend is an Express application over a PostgreSQL store (src/backend/app.js,
two concatenated revisions of the same file).  All state lives in five tables:
contacts, payment_registrations, payment_links (legacy), clients, client_links.
We embed each table as a list of records and each HTTP handler as a pure
function from a database state (plus the request parameters and the current
time in milliseconds) to a new database state and a response value.  SQL
SELECT with a WHERE clause returning rows[0] is embedded as List.find?, an
UPDATE as a List.map over the table and SQL NOW() comparisons use a Nat
timestamp passed explicitly.
-/

namespace Zorvixe

/-- A row of the contacts table (schema in initializeDb). -/
structure Contact where
  id : Nat
  name : String
  email : String
  phone : String
  subject : String
  message : String
  created_at : Nat
deriving DecidableEq, Repr

/-- A row of the payment_registrations table.  The client_id column is
VARCHAR in the schema, hence a String here. -/
structure PaymentRegistration where
  id : Nat
  client_name : String
  project_name : String
  client_id : String
  amount : Int
  due_date : Nat
  receipt_url : String
  reference_id : String
  status : String
  created_at : Nat
deriving DecidableEq, Repr

/-- A row of the legacy payment_links table (token UNIQUE, active BOOLEAN
DEFAULT TRUE in revision 1; revision 2 keeps reading and updating the
active column of the already-created table). -/
structure PaymentLink where
  id : Nat
  token : String
  active : Bool
  created_at : Nat
deriving DecidableEq, Repr

/-- A row of the clients table. -/
structure Client where
  id : Nat
  name : String
  email : String
  phone : String
  company : String
  created_at : Nat
deriving DecidableEq, Repr

/-- A row of the client_links table: client_id references clients(id),
token UNIQUE, active BOOLEAN DEFAULT TRUE, expires_at TIMESTAMP NOT NULL. -/
structure ClientLink where
  id : Nat
  client_id : Nat
  token : String
  active : Bool
  created_at : Nat
  expires_at : Nat
deriving DecidableEq, Repr

/-- The whole database state: the five tables created by initializeDb. -/
structure DB where
  contacts : List Contact
  payment_registrations : List PaymentRegistration
  payment_links : List PaymentLink
  clients : List Client
  client_links : List ClientLink
deriving DecidableEq, Repr

/-- One day in milliseconds: expiresAt.setDate(getDate() + 1) advances the
expiry by one day. -/
def dayMs : Nat := 86400000

/-- Response of GET /api/payment-link/:token — 404 when no row has the
token, otherwise 200 with an active boolean. -/
inductive LinkStatusResp where
  | notFound
  | ok (active : Bool)
deriving DecidableEq, Repr

/-- GET /api/payment-link/:token, revision 1 (app.js lines 84-110):
SELECT * FROM payment_links WHERE token = $1; 404 when rows is empty,
otherwise 200 with rows[0].active. -/
def paymentLinkStatus_v1 (db : DB) (t : String) : LinkStatusResp :=
  match db.payment_links.find? (fun r => r.token == t) with
  | none => .notFound
  | some r => .ok r.active

/-- GET /api/payment-link/:token, revision 2 (app.js lines 589-616): same
SELECT and same 404 branch, but the 200 branch always reports active as
true, ignoring the stored column. -/
def paymentLinkStatus_v2 (db : DB) (t : String) : LinkStatusResp :=
  match db.payment_links.find? (fun r => r.token == t) with
  | none => .notFound
  | some _ => .ok true

/-- Response of PUT /api/admin/payment-link/:token — 404 when the UPDATE
matched no row, otherwise 200 with the updated row. -/
inductive UpdateLinkResp where
  | notFound
  | ok (row : PaymentLink)
deriving DecidableEq, Repr

/-- PUT /api/admin/payment-link/:token (identical in both revisions):
UPDATE payment_links SET active = $1 WHERE token = $2 RETURNING *;
404 when no row matched, otherwise 200 with rows[0] of the updated rows. -/
def setLinkActive (db : DB) (t : String) (s : Bool) : DB × UpdateLinkResp :=
  let newLinks := db.payment_links.map
    (fun r => if r.token == t then { r with active := s } else r)
  match db.payment_links.find? (fun r => r.token == t) with
  | none => ({ db with payment_links := newLinks }, .notFound)
  | some r => ({ db with payment_links := newLinks }, .ok { r with active := s })

/-- Concrete store for the revision-2 counterexample: the seeded legacy row
with its active flag persisted as false (as PUT can set it). -/
def dbLegacyOff : DB :=
  { contacts := []
    payment_registrations := []
    payment_links := [{ id := 1, token := "4vXcZpLmKjQ8aTyNfRbEoWg7HdUs29qT", active := false, created_at := 0 }]
    clients := []
    client_links := [] }

/-- Concrete store for the PUT idempotence witness. -/
def dbPut : DB :=
  { contacts := []
    payment_registrations := []
    payment_links := [{ id := 1, token := "tok1", active := true, created_at := 0 }]
    clients := []
    client_links := [] }

theorem map_eq_self_of_fixed {α : Type} {f : α → α} :
    ∀ l : List α, (∀ x ∈ l, f x = x) → l.map f = l := by
  intro l h
  induction l with
  | nil => rfl
  | cons a as ih =>
    simp only [List.map_cons]
    rw [h a (List.mem_cons_self a as), ih (fun x hx => h x (List.mem_cons_of_mem a hx))]

/-- The row update applied by PUT /api/admin/payment-link/:token. -/
def putUpdate (t : String) (s : Bool) (r : PaymentLink) : PaymentLink :=
  if r.token == t then { r with active := s } else r

theorem putUpdate_token (t : String) (s : Bool) (r : PaymentLink) :
    (putUpdate t s r).token = r.token := by
  unfold putUpdate
  by_cases h : r.token == t <;> simp [h]

theorem putUpdate_idem (t : String) (s : Bool) (r : PaymentLink) :
    putUpdate t s (putUpdate t s r) = putUpdate t s r := by
  unfold putUpdate
  by_cases h : r.token == t <;> simp [h]

theorem setLinkActive_eq (db : DB) (t : String) (s : Bool) :
    setLinkActive db t s =
      ({ db with payment_links := db.payment_links.map (putUpdate t s) },
        match db.payment_links.find? (fun r => r.token == t) with
        | none => UpdateLinkResp.notFound
        | some r => UpdateLinkResp.ok { r with active := s }) := by
  unfold setLinkActive putUpdate
  cases db.payment_links.find? (fun r => r.token == t) <;> rfl

/-- Claim C3 counterexample: in revision 2 the endpoint reports active as
true for an existing token even though the stored active flag of that row is
false, so the response does not equal the persisted value. -/
theorem legacy_status_v2_ignores_stored_flag_cex :
    dbLegacyOff.payment_links.find?
        (fun r => r.token == "4vXcZpLmKjQ8aTyNfRbEoWg7HdUs29qT") =
      some { id := 1, token := "4vXcZpLmKjQ8aTyNfRbEoWg7HdUs29qT", active := false, created_at := 0 } ∧
    paymentLinkStatus_v2 dbLegacyOff "4vXcZpLmKjQ8aTyNfRbEoWg7HdUs29qT" =
      LinkStatusResp.ok true ∧
    paymentLinkStatus_v2 dbLegacyOff "4vXcZpLmKjQ8aTyNfRbEoWg7HdUs29qT" ≠
      LinkStatusResp.ok false := by
  refine ⟨rfl, rfl, ?_⟩
  decide

/-- Claim C3 (amended): both revisions return 404 exactly when no
payment_links row has the token; on an existing row revision 1 returns the
stored active flag while revision 2 returns active = true regardless of the
stored flag. -/
theorem legacy_status_revisions_behavior (db : DB) (t : String) :
    (paymentLinkStatus_v1 db t = .notFound ↔ ∀ r ∈ db.payment_links, r.token ≠ t) ∧
    (paymentLinkStatus_v2 db t = .notFound ↔ ∀ r ∈ db.payment_links, r.token ≠ t) ∧
    (∀ r, db.payment_links.find? (fun x => x.token == t) = some r →
      paymentLinkStatus_v1 db t = .ok r.active ∧ paymentLinkStatus_v2 db t = .ok true) := by
  unfold paymentLinkStatus_v1 paymentLinkStatus_v2
  refine ⟨?_, ?_, ?_⟩
  · cases h : db.payment_links.find? (fun r => r.token == t) with
    | none =>
      simp only [List.find?_eq_none] at h
      simpa using h
    | some r =>
      have hr := List.find?_some h
      have hm := List.mem_of_find?_eq_some h
      simp only [beq_iff_eq] at hr
      constructor
      · intro hcon
        exact absurd hcon (by simp)
      · intro hall
        exact absurd hr (hall r hm)
  · cases h : db.payment_links.find? (fun r => r.token == t) with
    | none =>
      simp only [List.find?_eq_none] at h
      simpa using h
    | some r =>
      have hr := List.find?_some h
      have hm := List.mem_of_find?_eq_some h
      simp only [beq_iff_eq] at hr
      constructor
      · intro hcon
        exact absurd hcon (by simp)
      · intro hall
        exact absurd hr (hall r hm)
  · intro r h
    rw [h]
    exact ⟨rfl, rfl⟩

/-- Claim C3 witness: the amended behavior evaluated on the seeded row whose
stored flag is false. -/
theorem legacy_status_revisions_behavior_witness :
    paymentLinkStatus_v1 dbLegacyOff "4vXcZpLmKjQ8aTyNfRbEoWg7HdUs29qT" =
      LinkStatusResp.ok false ∧
    paymentLinkStatus_v2 dbLegacyOff "4vXcZpLmKjQ8aTyNfRbEoWg7HdUs29qT" =
      LinkStatusResp.ok true := by
  have h := (legacy_status_revisions_behavior dbLegacyOff
      "4vXcZpLmKjQ8aTyNfRbEoWg7HdUs29qT").2.2
      { id := 1, token := "4vXcZpLmKjQ8aTyNfRbEoWg7HdUs29qT", active := false, created_at := 0 }
      (by decide)
  exact h

/-- Claim C5: applying PUT /api/admin/payment-link/:token with the same
state twice succeeds both times when a row with the token exists, the second
reply equals the first and the second application leaves the store exactly as
the first left it; and with a token matched by no row the endpoint replies
404 and leaves every row of every table unchanged. -/
theorem set_link_active_idempotent_and_404_frame (db : DB) (t : String) (s : Bool) :
    ((∃ r ∈ db.payment_links, r.token = t) →
      ∃ row, (setLinkActive db t s).2 = .ok row ∧ row.active = s ∧ row.token = t ∧
        setLinkActive (setLinkActive db t s).1 t s = setLinkActive db t s) ∧
    ((∀ r ∈ db.payment_links, r.token ≠ t) →
      setLinkActive db t s = (db, .notFound)) := by
  constructor
  · rintro ⟨r0, hmem, htok⟩
    have hsome : (db.payment_links.find? (fun r => r.token == t)).isSome := by
      rw [List.find?_isSome]
      exact ⟨r0, hmem, by simp [htok]⟩
    obtain ⟨r1, hr1⟩ := Option.isSome_iff_exists.mp hsome
    have hr1tok : r1.token = t := by
      have := List.find?_some hr1
      simpa using this
    refine ⟨{ r1 with active := s }, ?_, rfl, hr1tok, ?_⟩
    · rw [setLinkActive_eq, hr1]
    · have h1 : (setLinkActive db t s).1 =
          { db with payment_links := db.payment_links.map (putUpdate t s) } := by
        rw [setLinkActive_eq]
      have hcomp : ((fun r : PaymentLink => r.token == t) ∘ putUpdate t s) =
          (fun r : PaymentLink => r.token == t) := by
        funext x
        simp [Function.comp, putUpdate_token]
      have hupd : putUpdate t s r1 = { r1 with active := s } := by
        unfold putUpdate
        simp [hr1tok]
      have hfind2 : (db.payment_links.map (putUpdate t s)).find? (fun r => r.token == t) =
          some { r1 with active := s } := by
        rw [List.find?_map, hcomp, hr1, Option.map_some', hupd]
      have hmapfix : (db.payment_links.map (putUpdate t s)).map (putUpdate t s) =
          db.payment_links.map (putUpdate t s) := by
        rw [List.map_map]
        exact List.map_congr_left (fun x _ => putUpdate_idem t s x)
      rw [h1, setLinkActive_eq, setLinkActive_eq, hr1]
      dsimp only
      rw [hmapfix, hfind2]
  · intro hnone
    have hfind : db.payment_links.find? (fun r => r.token == t) = none := by
      rw [List.find?_eq_none]
      intro x hx
      simp [hnone x hx]
    rw [setLinkActive_eq, hfind]
    have : db.payment_links.map (putUpdate t s) = db.payment_links := by
      apply map_eq_self_of_fixed
      intro x hx
      unfold putUpdate
      simp [hnone x hx]
    rw [this]

/-- Claim C5 witness: idempotence on an existing token and the 404 frame
condition on an absent token, on a concrete store. -/
theorem set_link_active_witness :
    (∃ row, (setLinkActive dbPut "tok1" false).2 = .ok row ∧ row.active = false ∧
      row.token = "tok1" ∧
      setLinkActive (setLinkActive dbPut "tok1" false).1 "tok1" false =
        setLinkActive dbPut "tok1" false) ∧
    setLinkActive dbPut "ghost" false = (dbPut, .notFound) := by
  refine ⟨?_, ?_⟩
  · exact (set_link_active_idempotent_and_404_frame dbPut "tok1" false).1
      ⟨{ id := 1, token := "tok1", active := true, created_at := 0 }, by decide, rfl⟩
  · exact (set_link_active_idempotent_and_404_frame dbPut "ghost" false).2 (by decide)

/-- Response body of POST /api/admin/client-links: the full URL embedding
the token, the token and the expiry. -/
structure IssueResp where
  link : String
  token : String
  expiresAt : Nat
deriving DecidableEq, Repr

/-- The client_links row created by POST /api/admin/client-links: the serial
id, the requested client, the generated token, the schema default
active = TRUE and an expiry one day after issuance. -/
def newLinkRow (db : DB) (clientId : Nat) (tok : String) (now : Nat) : ClientLink :=
  { id := db.client_links.length + 1, client_id := clientId, token := tok,
    active := true, created_at := now, expires_at := now + dayMs }

/-- POST /api/admin/client-links (app.js lines 996-1025): inserts a row
into client_links with the given client_id, a fresh token and
expires_at one day from now; the active column is omitted from the INSERT so
the schema default TRUE applies.  The UNIQUE constraint on token makes a
colliding insert fail (surfaced as a 500), embedded as the none branch. -/
def issueClientLink (db : DB) (clientId : Nat) (tok : String) (now : Nat) :
    Option (DB × IssueResp) :=
  if db.client_links.any (fun l => l.token == tok) then
    none
  else
    some ({ db with client_links := db.client_links ++ [newLinkRow db clientId tok now] },
      { link := "https://www.zorvixetechnologies.com/payment/" ++ tok,
        token := tok, expiresAt := now + dayMs })

/-- The WHERE clause of the verification query of GET /api/client-details/:token:
token = $1 AND active = true AND expires_at > NOW(). -/
def usableFor (t : String) (now : Nat) (l : ClientLink) : Bool :=
  l.token == t && l.active && decide (now < l.expires_at)

/-- The verification query itself: SELECT * FROM client_links WHERE the link
is usable, taking rows[0]. -/
def linkLookup (db : DB) (t : String) (now : Nat) : Option ClientLink :=
  db.client_links.find? (usableFor t now)

/-- Latest payment registration of a client: SELECT * FROM
payment_registrations WHERE client_id = $1 ORDER BY created_at DESC LIMIT 1.
The client_id column is VARCHAR, so the integer id is compared against its
decimal text. -/
def latestPaymentFor (db : DB) (cid : Nat) : Option PaymentRegistration :=
  ((db.payment_registrations.filter (fun p => p.client_id == toString cid)).foldl
    (fun best p =>
      match best with
      | none => some p
      | some b => if p.created_at > b.created_at then some p else some b)
    none)

/-- Outcome of GET /api/client-details/:token. -/
inductive ClientDetailsResult where
  | linkNotFound
  | clientNotFound
  | ok (client : Client) (projectName : String) (amount : Int) (dueDate : Nat)
deriving DecidableEq, Repr

/-- True exactly on the 200 outcome. -/
def ClientDetailsResult.isSuccess : ClientDetailsResult → Bool
  | .ok _ _ _ _ => true
  | _ => false

/-- The client carried by a 200 outcome. -/
def ClientDetailsResult.clientOf : ClientDetailsResult → Option Client
  | .ok c _ _ _ => some c
  | _ => none

/-- GET /api/client-details/:token (app.js lines 1028-1097): look up a
usable link; 404 with the generic message when none; then fetch the bound
client by id, 404 when missing; then fetch the latest payment registration,
defaulting amount 5000, project name and a due date 7 days out when the
client has no registration (project_name also falls back when empty, the
JavaScript or-operator on a falsy string). -/
def clientDetails (db : DB) (t : String) (now : Nat) : DB × ClientDetailsResult :=
  match linkLookup db t now with
  | none => (db, .linkNotFound)
  | some link =>
    match db.clients.find? (fun c => c.id == link.client_id) with
    | none => (db, .clientNotFound)
    | some c =>
      match latestPaymentFor db c.id with
      | some p =>
        (db, .ok c (if p.project_name = "" then "New Project" else p.project_name)
          p.amount p.due_date)
      | none => (db, .ok c "New Project" 5000 (now + 7 * dayMs))

/-- Claim C2: issuing a client link under a fresh token appends exactly one
row to client_links, that row is active with expiry one day after issuance
and bound to the requested client, and every other table and every
pre-existing client_links row is left unchanged. -/
theorem issue_link_appends_single_active_row (db : DB) (clientId : Nat)
    (tok : String) (now : Nat)
    (hfresh : ∀ l ∈ db.client_links, l.token ≠ tok) :
    ∃ db2 resp row, issueClientLink db clientId tok now = some (db2, resp) ∧
      db2.client_links = db.client_links ++ [row] ∧
      row.active = true ∧ row.expires_at = now + dayMs ∧ row.client_id = clientId ∧
      row.token = tok ∧
      db2.contacts = db.contacts ∧
      db2.payment_registrations = db.payment_registrations ∧
      db2.payment_links = db.payment_links ∧
      db2.clients = db.clients ∧
      resp.token = tok ∧ resp.expiresAt = now + dayMs := by
  have hany : db.client_links.any (fun l => l.token == tok) = false := by
    rw [List.any_eq_false]
    intro l hl
    simp [hfresh l hl]
  refine ⟨{ db with client_links := db.client_links ++ [newLinkRow db clientId tok now] },
      { link := "https://www.zorvixetechnologies.com/payment/" ++ tok,
        token := tok, expiresAt := now + dayMs },
      newLinkRow db clientId tok now,
      ?_, rfl, rfl, rfl, rfl, rfl, rfl, rfl, rfl, rfl, rfl, rfl⟩
  unfold issueClientLink
  rw [hany]
  rfl

/-- Claim C2 witness: issuing a link on a concrete store. -/
theorem issue_link_appends_witness :
    ∃ db2 resp row,
      issueClientLink dbLegacyOff 7 "freshtok" 1000 = some (db2, resp) ∧
      db2.client_links = dbLegacyOff.client_links ++ [row] ∧
      row.active = true ∧ row.expires_at = 1000 + dayMs ∧ row.client_id = 7 ∧
      row.token = "freshtok" ∧
      db2.contacts = dbLegacyOff.contacts ∧
      db2.payment_registrations = dbLegacyOff.payment_registrations ∧
      db2.payment_links = dbLegacyOff.payment_links ∧
      db2.clients = dbLegacyOff.clients ∧
      resp.token = "freshtok" ∧ resp.expiresAt = 1000 + dayMs :=
  issue_link_appends_single_active_row dbLegacyOff 7 "freshtok" 1000 (by decide)

/-- Claim C10: GET /api/client-details/:token only issues SELECT statements,
so the database state after the call equals the state before it on every
path, and running the verification again on the resulting state at the same
time returns the same response. -/
theorem client_details_read_only (db : DB) (t : String) (now : Nat) :
    (clientDetails db t now).1 = db ∧
    (clientDetails (clientDetails db t now).1 t now).2 = (clientDetails db t now).2 := by
  have hfst : (clientDetails db t now).1 = db := by
    unfold clientDetails
    repeat' split
    all_goals rfl
  exact ⟨hfst, by rw [hfst]⟩

theorem clientDetails_of_lookup_none (db : DB) (t : String) (now : Nat)
    (h : linkLookup db t now = none) :
    clientDetails db t now = (db, .linkNotFound) := by
  unfold clientDetails
  rw [h]

theorem clientDetails_of_lookup_some (db : DB) (t : String) (now : Nat)
    (link : ClientLink) (c : Client)
    (h : linkLookup db t now = some link)
    (hc : db.clients.find? (fun x => x.id == link.client_id) = some c) :
    (clientDetails db t now).2.clientOf = some c ∧
    (clientDetails db t now).2.isSuccess = true := by
  unfold clientDetails
  rw [h]
  dsimp only
  rw [hc]
  dsimp only
  cases latestPaymentFor db c.id <;>
    simp [ClientDetailsResult.clientOf, ClientDetailsResult.isSuccess]

theorem clientDetails_of_all_unusable (db : DB) (t : String) (now : Nat)
    (h : ∀ l ∈ db.client_links, usableFor t now l = false) :
    (clientDetails db t now).2 = .linkNotFound := by
  have hnone : linkLookup db t now = none := by
    unfold linkLookup
    rw [List.find?_eq_none]
    intro x hx
    simp [h x hx]
  rw [clientDetails_of_lookup_none db t now hnone]

/-- Concrete store for the verification witnesses: one client, one active
unexpired link, one deactivated link and one expired-but-active link. -/
def dbVerify : DB :=
  { contacts := []
    payment_registrations := []
    payment_links := []
    clients := [{ id := 1, name := "Ada", email := "ada@example.com",
                  phone := "9876543210", company := "", created_at := 0 }]
    client_links :=
      [{ id := 1, client_id := 1, token := "tokA", active := true,
         created_at := 0, expires_at := 100 },
       { id := 2, client_id := 1, token := "tokOff", active := false,
         created_at := 0, expires_at := 100 },
       { id := 3, client_id := 1, token := "tokOld", active := true,
         created_at := 0, expires_at := 50 }] }

/-- Claim C1: on a store whose client_links rows all reference an existing
client (the foreign key with cascade delete guarantees this), verification
through GET /api/client-details/:token returns the 200 outcome exactly when
some client_links row carries the token, is active and has expires_at
strictly greater than the current time; in particular a row whose expires_at
equals now, or whose active flag is false, never verifies. -/
theorem client_link_verification_iff (db : DB) (t : String) (now : Nat)
    (hFK : ∀ l ∈ db.client_links, ∃ c ∈ db.clients, c.id = l.client_id) :
    (clientDetails db t now).2.isSuccess = true ↔
      ∃ l ∈ db.client_links, l.token = t ∧ l.active = true ∧ now < l.expires_at := by
  constructor
  · intro hs
    cases h : linkLookup db t now with
    | none =>
      rw [clientDetails_of_lookup_none db t now h] at hs
      exact absurd hs (by simp [ClientDetailsResult.isSuccess])
    | some link =>
      have hu : usableFor t now link = true := List.find?_some h
      have hmem : link ∈ db.client_links := List.mem_of_find?_eq_some h
      unfold usableFor at hu
      simp only [Bool.and_eq_true, beq_iff_eq, decide_eq_true_eq] at hu
      exact ⟨link, hmem, hu.1.1, hu.1.2, hu.2⟩
  · rintro ⟨l, hmem, htok, hact, hexp⟩
    have hsome : (db.client_links.find? (usableFor t now)).isSome := by
      rw [List.find?_isSome]
      exact ⟨l, hmem, by simp [usableFor, htok, hact, hexp]⟩
    obtain ⟨link, hlink⟩ := Option.isSome_iff_exists.mp hsome
    have hlmem : link ∈ db.client_links := List.mem_of_find?_eq_some hlink
    obtain ⟨c, hcmem, hcid⟩ := hFK link hlmem
    have hcsome : (db.clients.find? (fun x => x.id == link.client_id)).isSome := by
      rw [List.find?_isSome]
      exact ⟨c, hcmem, by simp [hcid]⟩
    obtain ⟨c2, hc2⟩ := Option.isSome_iff_exists.mp hcsome
    exact (clientDetails_of_lookup_some db t now link c2 hlink hc2).2

/-- Claim C1 witness: the equivalence evaluated on a concrete store with a
usable link. -/
theorem client_link_verification_iff_witness :
    (clientDetails dbVerify "tokA" 5).2.isSuccess = true ↔
      ∃ l ∈ dbVerify.client_links,
        l.token = "tokA" ∧ l.active = true ∧ 5 < l.expires_at :=
  client_link_verification_iff dbVerify "tokA" 5 (by decide)

/-- Claim C4: whenever verification fails because no row carries the token,
or because every row carrying it is inactive, or because every row carrying
it is expired (expires_at at or before now), GET /api/client-details/:token
produces the identical generic 404 outcome, so the three failure causes are
indistinguishable to the caller. -/
theorem client_link_failure_modes_indistinguishable (db : DB) (t : String) (now : Nat) :
    ((∀ l ∈ db.client_links, l.token ≠ t) →
      (clientDetails db t now).2 = .linkNotFound) ∧
    ((∀ l ∈ db.client_links, l.token = t → l.active = false) →
      (clientDetails db t now).2 = .linkNotFound) ∧
    ((∀ l ∈ db.client_links, l.token = t → l.expires_at ≤ now) →
      (clientDetails db t now).2 = .linkNotFound) := by
  refine ⟨?_, ?_, ?_⟩
  · intro h
    apply clientDetails_of_all_unusable
    intro l hl
    have : (l.token == t) = false := by simp [h l hl]
    simp [usableFor, this]
  · intro h
    apply clientDetails_of_all_unusable
    intro l hl
    by_cases htv : l.token = t
    · simp [usableFor, htv, h l hl htv]
    · have : (l.token == t) = false := by simp [htv]
      simp [usableFor, this]
  · intro h
    apply clientDetails_of_all_unusable
    intro l hl
    by_cases htv : l.token = t
    · have : ¬ (now < l.expires_at) := Nat.not_lt.mpr (h l hl htv)
      simp [usableFor, this]
    · have : (l.token == t) = false := by simp [htv]
      simp [usableFor, this]

/-- Claim C4 witness: the generic outcome observed for a never-issued token,
a deactivated token and an expired token on a concrete store. -/
theorem client_link_failure_modes_witness :
    (clientDetails dbVerify "zzz" 5).2 = .linkNotFound ∧
    (clientDetails dbVerify "tokOff" 5).2 = .linkNotFound ∧
    (clientDetails dbVerify "tokOld" 99).2 = .linkNotFound :=
  ⟨(client_link_failure_modes_indistinguishable dbVerify "zzz" 5).1 (by decide),
   (client_link_failure_modes_indistinguishable dbVerify "tokOff" 5).2.1 (by decide),
   (client_link_failure_modes_indistinguishable dbVerify "tokOld" 99).2.2 (by decide)⟩

/-- Concrete client for the issuance witness. -/
def cW : Client :=
  { id := 1, name := "Ada", email := "ada@example.com",
    phone := "9876543210", company := "", created_at := 0 }

/-- Store before any link is issued. -/
def dbIssue0 : DB :=
  { contacts := []
    payment_registrations := []
    payment_links := []
    clients := [cW]
    client_links := [] }

/-- Store after the first issuance of the witness. -/
def dbIssue1 : DB :=
  { dbIssue0 with client_links :=
      [{ id := 1, client_id := 1, token := "tA", active := true,
         created_at := 0, expires_at := dayMs }] }

/-- Store after the second issuance of the witness. -/
def dbIssue2 : DB :=
  { dbIssue0 with client_links :=
      [{ id := 1, client_id := 1, token := "tA", active := true,
         created_at := 0, expires_at := dayMs },
       { id := 2, client_id := 1, token := "tB", active := true,
         created_at := 0, expires_at := dayMs }] }

/-- Claim C6: when issuing a client link twice for the same client succeeds
(two successive POST /api/admin/client-links calls), the two tokens are
necessarily distinct, and afterwards each token independently verifies
through GET /api/client-details/:token within its 24-hour window, both
resolving to the profile of that same client. -/
theorem issue_twice_distinct_tokens_both_verify
    (db : DB) (c : Client) (t1 t2 : String) (n1 n2 m : Nat)
    (db1 db2 : DB) (r1 r2 : IssueResp)
    (hc : db.clients.find? (fun x => x.id == c.id) = some c)
    (h1 : issueClientLink db c.id t1 n1 = some (db1, r1))
    (h2 : issueClientLink db1 c.id t2 n2 = some (db2, r2))
    (hm1 : m < n1 + dayMs) (hm2 : m < n2 + dayMs) :
    t1 ≠ t2 ∧
    (clientDetails db2 t1 m).2.clientOf = some c ∧
    (clientDetails db2 t2 m).2.clientOf = some c := by
  unfold issueClientLink at h1 h2
  by_cases hb1 : db.client_links.any (fun l => l.token == t1) = true
  · rw [if_pos hb1] at h1
    exact absurd h1 (by simp)
  · rw [if_neg hb1] at h1
    rw [Bool.not_eq_true, List.any_eq_false] at hb1
    have hfresh1 : ∀ l ∈ db.client_links, l.token ≠ t1 := by
      intro l hl
      simpa using hb1 l hl
    simp only [Option.some.injEq, Prod.mk.injEq] at h1
    obtain ⟨hdb1, -⟩ := h1
    subst hdb1
    by_cases hb2 : (db.client_links ++ [newLinkRow db c.id t1 n1]).any
        (fun l => l.token == t2) = true
    · rw [if_pos hb2] at h2
      exact absurd h2 (by simp)
    · rw [if_neg hb2] at h2
      rw [Bool.not_eq_true, List.any_eq_false] at hb2
      have hfresh2 : ∀ l ∈ db.client_links ++ [newLinkRow db c.id t1 n1],
          l.token ≠ t2 := by
        intro l hl
        simpa using hb2 l hl
      simp only [Option.some.injEq, Prod.mk.injEq] at h2
      obtain ⟨hdb2, -⟩ := h2
      subst hdb2
      have hne : t1 ≠ t2 := by
        have := hfresh2 (newLinkRow db c.id t1 n1) (by simp)
        simpa [newLinkRow] using this
      refine ⟨hne, ?_, ?_⟩
      · have hfind1 : linkLookup
            { db with client_links := (db.client_links ++ [newLinkRow db c.id t1 n1]) ++
                [newLinkRow { db with client_links := db.client_links ++ [newLinkRow db c.id t1 n1] } c.id t2 n2] }
            t1 m = some (newLinkRow db c.id t1 n1) := by
          unfold linkLookup
          show ((db.client_links ++ _) ++ _).find? _ = _
          rw [List.find?_append, List.find?_append]
          have ha : db.client_links.find? (usableFor t1 m) = none := by
            rw [List.find?_eq_none]
            intro x hx
            simp [usableFor, hfresh1 x hx]
          have hrow1 : usableFor t1 m (newLinkRow db c.id t1 n1) = true := by
            simp [usableFor, newLinkRow, hm1]
          rw [ha, List.find?_cons_of_pos _ hrow1]
          rfl
        exact (clientDetails_of_lookup_some _ t1 m _ c hfind1 hc).1
      · have hfind2 : linkLookup
            { db with client_links := (db.client_links ++ [newLinkRow db c.id t1 n1]) ++
                [newLinkRow { db with client_links := db.client_links ++ [newLinkRow db c.id t1 n1] } c.id t2 n2] }
            t2 m = some
              (newLinkRow { db with client_links := db.client_links ++ [newLinkRow db c.id t1 n1] } c.id t2 n2) := by
          unfold linkLookup
          show ((db.client_links ++ _) ++ _).find? _ = _
          rw [List.find?_append]
          have ha : (db.client_links ++ [newLinkRow db c.id t1 n1]).find?
              (usableFor t2 m) = none := by
            rw [List.find?_eq_none]
            intro x hx
            simp [usableFor, hfresh2 x hx]
          have hrow2 : usableFor t2 m
              (newLinkRow { db with client_links := db.client_links ++ [newLinkRow db c.id t1 n1] } c.id t2 n2) = true := by
            simp [usableFor, newLinkRow, hm2]
          rw [ha, List.find?_cons_of_pos _ hrow2]
          rfl
        exact (clientDetails_of_lookup_some _ t2 m _ c hfind2 hc).1

/-- Claim C6 witness: two issuances on a concrete store yield distinct
tokens that both verify and resolve to the same client. -/
theorem issue_twice_witness :
    ("tA" : String) ≠ "tB" ∧
    (clientDetails dbIssue2 "tA" 5).2.clientOf = some cW ∧
    (clientDetails dbIssue2 "tB" 5).2.clientOf = some cW :=
  issue_twice_distinct_tokens_both_verify dbIssue0 cW "tA" "tB" 0 0 5
    dbIssue1 dbIssue2
    ({ link := "https://www.zorvixetechnologies.com/payment/tA",
       token := "tA", expiresAt := dayMs } : IssueResp)
    ({ link := "https://www.zorvixetechnologies.com/payment/tB",
       token := "tB", expiresAt := dayMs } : IssueResp)
    (by decide) (by decide) (by decide) (by decide) (by decide)

/-- The request body of POST /api/contact/submit; an absent field behaves
like the empty string (both are falsy in the validation checks). -/
structure ContactInput where
  name : String
  email : String
  phone : String
  subject : String
  message : String
deriving DecidableEq, Repr

/-- The whitespace class of the JavaScript regular-expression escape for
spaces, restricted to the characters relevant here. -/
def isJsSpace (c : Char) : Bool :=
  c == ' ' || c == '\t' || c == '\n' || c == '\r' ||
  c == Char.ofNat 11 || c == Char.ofNat 12 || c == Char.ofNat 160

/-- Trim as JavaScript String.trim: strip the whitespace class from both
ends, here on the character list of the string. -/
def jsTrimL (cs : List Char) : List Char :=
  ((cs.dropWhile isJsSpace).reverse.dropWhile isJsSpace).reverse

/-- A character admissible on either side of the at-sign in the email
pattern: neither whitespace nor an at-sign. -/
def emailChar (c : Char) : Bool :=
  !(isJsSpace c) && !(c == '@')

/-- True when the character list has a dot that is neither its first nor
its last element, which is exactly when the domain splits as the required
nonempty-dot-nonempty tail of the pattern. -/
def hasInnerDot (cs : List Char) : Bool :=
  (List.range cs.length).any (fun i =>
    decide (0 < i) && decide (i + 1 < cs.length) && (cs.getD i ' ' == '.'))

/-- Split a character list at every at-sign (the grouping JavaScript
obtains when matching the one-at-sign email pattern). -/
def splitAtSign : List Char → List (List Char)
  | [] => [[]]
  | c :: rest =>
    match splitAtSign rest with
    | [] => [[]]
    | g :: gs => if c == '@' then [] :: g :: gs else (c :: g) :: gs

/-- The email test used by the contact form: exactly one at-sign, a
nonempty local part of admissible characters, and a domain of admissible
characters containing an inner dot. -/
def emailOk (s : String) : Bool :=
  match splitAtSign s.data with
  | [lp, dom] =>
    (!lp.isEmpty) && lp.all emailChar && dom.all emailChar && hasInnerDot dom
  | _ => false

/-- The phone test used by the contact form: a first digit between 6 and 9
followed by exactly nine decimal digits. -/
def phoneOk (s : String) : Bool :=
  match s.data with
  | c :: rest =>
    decide ('6' ≤ c) && decide (c ≤ '9') && (rest.length == 9) && rest.all Char.isDigit
  | [] => false

/-- Name check: trimmed length at least 3. -/
def nameOk (s : String) : Bool := decide (3 ≤ (jsTrimL s.data).length)

/-- Subject check: a nonempty (truthy) value. -/
def subjectOk (s : String) : Bool := s != ""

/-- Message check: trimmed length at least 10. -/
def messageOk (s : String) : Bool := decide (10 ≤ (jsTrimL s.data).length)

/-- The five validated fields of the contact form, in the order the handler
checks them. -/
inductive CField where
  | name
  | email
  | phone
  | subject
  | message
deriving DecidableEq, Repr

/-- Per-field validity of a contact payload. -/
def fieldOk (inp : ContactInput) : CField → Bool
  | .name => nameOk inp.name
  | .email => emailOk inp.email
  | .phone => phoneOk inp.phone
  | .subject => subjectOk inp.subject
  | .message => messageOk inp.message

/-- The field order of the handler. -/
def allFields : List CField := [.name, .email, .phone, .subject, .message]

/-- The errors object built by POST /api/contact/submit: one entry per
violated field, in check order. -/
def contactErrors (inp : ContactInput) : List CField :=
  allFields.filter (fun f => ! fieldOk inp f)

/-- The contacts row inserted for a valid payload. -/
def newContactRow (db : DB) (inp : ContactInput) (now : Nat) : Contact :=
  { id := db.contacts.length + 1, name := inp.name, email := inp.email,
    phone := inp.phone, subject := inp.subject, message := inp.message,
    created_at := now }

/-- Response of POST /api/contact/submit: 400 with the errors object, or
201 echoing the inserted row. -/
inductive ContactResp where
  | badRequest (errs : List CField)
  | created (row : Contact)
deriving DecidableEq, Repr

/-- POST /api/contact/submit (app.js lines 655-691): validate the five
fields; on any error reply 400 with the errors object and touch nothing;
otherwise INSERT the row and reply 201 with RETURNING *. -/
def contactSubmit (db : DB) (inp : ContactInput) (now : Nat) : DB × ContactResp :=
  if contactErrors inp = [] then
    ({ db with contacts := db.contacts ++ [newContactRow db inp now] },
      .created (newContactRow db inp now))
  else
    (db, .badRequest (contactErrors inp))

theorem mem_allFields (f : CField) : f ∈ allFields := by
  cases f <;> simp [allFields]

/-- Claim C8: a contact payload on which every field check passes is stored
and echoed with a 201, the new row appended to the contacts table; a payload
violating at least one check gets a 400 whose errors object holds exactly
one entry per violated field, and no row is inserted. -/
theorem contact_submit_validation_behavior (db : DB) (inp : ContactInput) (now : Nat) :
    ((∀ f, fieldOk inp f = true) →
      contactSubmit db inp now =
        ({ db with contacts := db.contacts ++ [newContactRow db inp now] },
          .created (newContactRow db inp now)) ∧
      (newContactRow db inp now).name = inp.name ∧
      (newContactRow db inp now).email = inp.email ∧
      (newContactRow db inp now).phone = inp.phone ∧
      (newContactRow db inp now).subject = inp.subject ∧
      (newContactRow db inp now).message = inp.message) ∧
    ((∃ f, fieldOk inp f = false) →
      (contactSubmit db inp now).1 = db ∧
      ∃ errs, (contactSubmit db inp now).2 = .badRequest errs ∧
        errs.Nodup ∧ ∀ f, f ∈ errs ↔ fieldOk inp f = false) := by
  constructor
  · intro hall
    have hnil : contactErrors inp = [] := by
      unfold contactErrors
      rw [List.filter_eq_nil_iff]
      intro f _
      simp [hall f]
    unfold contactSubmit
    rw [if_pos hnil]
    exact ⟨rfl, rfl, rfl, rfl, rfl, rfl⟩
  · rintro ⟨f, hf⟩
    have hne : contactErrors inp ≠ [] := by
      intro hnil
      unfold contactErrors at hnil
      rw [List.filter_eq_nil_iff] at hnil
      exact hnil f (mem_allFields f) (by simp [hf])
    unfold contactSubmit
    rw [if_neg hne]
    refine ⟨rfl, contactErrors inp, rfl, ?_, ?_⟩
    · exact List.Nodup.filter _ (by decide)
    · intro g
      unfold contactErrors
      rw [List.mem_filter]
      constructor
      · rintro ⟨-, hg⟩
        simpa using hg
      · intro hg
        exact ⟨mem_allFields g, by simp [hg]⟩

/-- Claim C8 witness: a fully valid payload is stored and echoed; a payload
with a short name and a bad phone gets exactly those two error entries and
leaves the store unchanged. -/
theorem contact_submit_validation_witness :
    (contactSubmit dbIssue0
        { name := "Ada Lovelace", email := "ada@example.com",
          phone := "9876543210", subject := "Web", message := "Need a website built" } 3 =
      ({ dbIssue0 with contacts := dbIssue0.contacts ++
          [newContactRow dbIssue0
            { name := "Ada Lovelace", email := "ada@example.com",
              phone := "9876543210", subject := "Web", message := "Need a website built" } 3] },
        .created (newContactRow dbIssue0
          { name := "Ada Lovelace", email := "ada@example.com",
            phone := "9876543210", subject := "Web", message := "Need a website built" } 3))) ∧
    ((contactSubmit dbIssue0
        { name := "Al", email := "ada@example.com",
          phone := "12345", subject := "Web", message := "Need a website built" } 3).1 = dbIssue0 ∧
      ∃ errs, (contactSubmit dbIssue0
          { name := "Al", email := "ada@example.com",
            phone := "12345", subject := "Web", message := "Need a website built" } 3).2 =
          .badRequest errs ∧
        errs.Nodup ∧ ∀ f, f ∈ errs ↔ fieldOk
          { name := "Al", email := "ada@example.com",
            phone := "12345", subject := "Web", message := "Need a website built" } f = false) :=
  ⟨((contact_submit_validation_behavior dbIssue0
      { name := "Ada Lovelace", email := "ada@example.com",
        phone := "9876543210", subject := "Web", message := "Need a website built" } 3).1
      (by intro f; cases f <;> decide)).1,
   (contact_submit_validation_behavior dbIssue0
      { name := "Al", email := "ada@example.com",
        phone := "12345", subject := "Web", message := "Need a website built" } 3).2
      ⟨CField.name, by decide⟩⟩

/-- SQL LIKE pattern matching, case-folded as ILIKE does: a percent sign
matches any run of characters, an underscore any single character, and any
other pattern character matches itself up to case. -/
def likeMatch : List Char → List Char → Bool
  | [], [] => true
  | [], _ :: _ => false
  | '%' :: ps, t =>
    likeMatch ps t ||
      (match t with
       | [] => false
       | _ :: ts => likeMatch ('%' :: ps) ts)
  | '_' :: _, [] => false
  | '_' :: ps, _ :: ts => likeMatch ps ts
  | _ :: _, [] => false
  | ch :: ps, c :: ts => (ch.toLower == c.toLower) && likeMatch ps ts
termination_by p t => (t.length, p.length)

/-- The ILIKE $1 test with the interpolated search term: percent, query
text, percent. -/
def ciLike (q : String) (text : String) : Bool :=
  likeMatch ('%' :: (q.data ++ ['%'])) text.data

/-- The WHERE clause of GET /api/admin/payments/search: the pattern tested
against the four text columns. -/
def rowMatches (q : String) (r : PaymentRegistration) : Bool :=
  ciLike q r.client_name || ciLike q r.project_name ||
  ciLike q r.client_id || ciLike q r.reference_id

/-- Insertion step for ordering rows by created_at descending. -/
def insertByCreatedDesc (r : PaymentRegistration) :
    List PaymentRegistration → List PaymentRegistration
  | [] => [r]
  | x :: xs =>
    if r.created_at > x.created_at then r :: x :: xs
    else x :: insertByCreatedDesc r xs

/-- ORDER BY created_at DESC as an insertion sort. -/
def sortByCreatedDesc : List PaymentRegistration → List PaymentRegistration
  | [] => []
  | r :: rs => insertByCreatedDesc r (sortByCreatedDesc rs)

/-- Response of GET /api/admin/payments/search. -/
inductive SearchResp where
  | badRequest
  | ok (rows : List PaymentRegistration)
deriving DecidableEq, Repr

/-- GET /api/admin/payments/search (app.js lines 887-922): an absent query
or one whose trimmed length is below 3 is rejected with 400 before any
statement reaches the store; otherwise the four text columns are matched
with ILIKE against the interpolated pattern, ordered newest first, LIMIT 20. -/
def searchPayments (db : DB) (q : Option String) : SearchResp :=
  match q with
  | none => .badRequest
  | some s =>
    if (jsTrimL s.data).length < 3 then .badRequest
    else .ok ((sortByCreatedDesc (db.payment_registrations.filter (rowMatches s))).take 20)

theorem mem_insertByCreatedDesc (a r : PaymentRegistration) :
    ∀ l : List PaymentRegistration, a ∈ insertByCreatedDesc r l → a = r ∨ a ∈ l := by
  intro l
  induction l with
  | nil =>
    intro h
    rw [show insertByCreatedDesc r [] = [r] from rfl] at h
    exact Or.inl (by simpa using h)
  | cons x xs ih =>
    intro h
    rw [show insertByCreatedDesc r (x :: xs) =
        (if r.created_at > x.created_at then r :: x :: xs
         else x :: insertByCreatedDesc r xs) from rfl] at h
    by_cases hc : r.created_at > x.created_at
    · rw [if_pos hc] at h
      rcases List.mem_cons.mp h with h1 | h1
      · exact Or.inl h1
      · exact Or.inr h1
    · rw [if_neg hc] at h
      rcases List.mem_cons.mp h with h1 | h1
      · exact Or.inr (List.mem_cons.mpr (Or.inl h1))
      · rcases ih h1 with h2 | h2
        · exact Or.inl h2
        · exact Or.inr (List.mem_cons.mpr (Or.inr h2))

theorem mem_sortByCreatedDesc (a : PaymentRegistration) :
    ∀ l : List PaymentRegistration, a ∈ sortByCreatedDesc l → a ∈ l := by
  intro l
  induction l with
  | nil =>
    intro h
    simp [sortByCreatedDesc] at h
  | cons x xs ih =>
    intro h
    rw [show sortByCreatedDesc (x :: xs) = insertByCreatedDesc x (sortByCreatedDesc xs)
      from rfl] at h
    rcases mem_insertByCreatedDesc a x _ h with h2 | h2
    · exact List.mem_cons.mpr (Or.inl h2)
    · exact List.mem_cons.mpr (Or.inr (ih h2))

/-- Concrete store for the search witness. -/
def dbSearch : DB :=
  { contacts := []
    payment_registrations :=
      [{ id := 1, client_name := "Alpha Corp", project_name := "Site",
         client_id := "C1", amount := 100, due_date := 10,
         receipt_url := "u1", reference_id := "PAY-2025-ABCDEF",
         status := "pending", created_at := 1 },
       { id := 2, client_name := "Beta LLC", project_name := "App",
         client_id := "C2", amount := 200, due_date := 20,
         receipt_url := "u2", reference_id := "PAY-2025-GHIJKL",
         status := "pending", created_at := 2 }]
    payment_links := []
    clients := []
    client_links := [] }

/-- Claim C9: a search request whose query is absent or has trimmed length
below 3 is answered 400, and the response is the same for every store, so
no query is performed; a query of trimmed length at least 3 is answered 200
with at most 20 rows, each of which matches the pattern case-insensitively
on one of the four text columns. -/
theorem search_min_length_and_limit (db : DB) (q : Option String) :
    ((∀ s, q = some s → (jsTrimL s.data).length < 3) →
      searchPayments db q = .badRequest ∧
      ∀ db2, searchPayments db2 q = searchPayments db q) ∧
    (∀ s, q = some s → 3 ≤ (jsTrimL s.data).length →
      ∃ rows, searchPayments db q = .ok rows ∧ rows.length ≤ 20 ∧
        ∀ r ∈ rows, rowMatches s r = true) := by
  constructor
  · intro hshort
    cases q with
    | none => exact ⟨rfl, fun db2 => rfl⟩
    | some s =>
      have hs := hshort s rfl
      refine ⟨?_, ?_⟩
      · simp [searchPayments, hs]
      · intro db2
        simp [searchPayments, hs]
  · intro s hq h3
    subst hq
    have hnot : ¬ (jsTrimL s.data).length < 3 := Nat.not_lt.mpr h3
    refine ⟨(sortByCreatedDesc (db.payment_registrations.filter (rowMatches s))).take 20,
      ?_, ?_, ?_⟩
    · simp [searchPayments, hnot]
    · exact List.length_take_le 20 _
    · intro r hr
      have hmem : r ∈ sortByCreatedDesc (db.payment_registrations.filter (rowMatches s)) :=
        List.mem_of_mem_take hr
      have hmem2 : r ∈ db.payment_registrations.filter (rowMatches s) :=
        mem_sortByCreatedDesc r _ hmem
      exact (List.mem_filter.mp hmem2).2

/-- Claim C9 witness: a short query is rejected independently of the store,
and a three-letter query returns only matching rows within the limit. -/
theorem search_min_length_witness :
    (searchPayments dbSearch (some " ab ") = .badRequest ∧
      ∀ db2, searchPayments db2 (some " ab ") = searchPayments dbSearch (some " ab ")) ∧
    (∃ rows, searchPayments dbSearch (some "alp") = .ok rows ∧ rows.length ≤ 20 ∧
      ∀ r ∈ rows, rowMatches "alp" r = true) :=
  ⟨(search_min_length_and_limit dbSearch (some " ab ")).1
      (by intro s h; cases h; decide),
   (search_min_length_and_limit dbSearch (some "alp")).2 "alp" rfl (by decide)⟩

/-- The character JavaScript Number.toString(36) uses for one base-36
digit: 0-9 then a-z. -/
def base36Char (d : Nat) : Char :=
  if d < 10 then Char.ofNat (48 + d) else Char.ofNat (87 + d)

/-- Number.toString(36) of a Math.random() result, abstracted over the
base-36 fractional digit expansion JavaScript prints: the digits after the
leading zero-dot, with no trailing zero digits; a value whose expansion is
empty (zero) prints as a bare zero with no dot. -/
def jsToString36Frac (ds : List Nat) : String :=
  if ds.isEmpty then "0" else "0." ++ String.mk (ds.map base36Char)

/-- The suffix built by POST /api/payment/submit:
Math.random().toString(36).substr(2, 6).toUpperCase(). -/
def refSuffix (ds : List Nat) : String :=
  String.mk ((((jsToString36Frac ds).data.drop 2).take 6).map Char.toUpper)

/-- The generated reference identifier PAY-(year)-(suffix). -/
def referenceId (year : Nat) (ds : List Nat) : String :=
  "PAY-" ++ toString year ++ "-" ++ refSuffix ds

/-- Claim C7 evidence: when Math.random() returns 0.5 its base-36 string is
zero-dot-i (the single fractional digit 18), so the generated suffix is the
single character I rather than six characters, contradicting the documented
PAY-YYYY-RANDOM6 format; with an empty expansion (Math.random() returning 0)
the suffix is even empty. -/
theorem reference_suffix_length_bug :
    referenceId 2026 [18] = "PAY-2026-I" ∧ (refSuffix [18]).length = 1 ∧
    referenceId 2026 [] = "PAY-2026-" ∧ (refSuffix []).length = 0 := by
  refine ⟨by decide, by decide, by decide, by decide⟩

end Zorvixe
